import Mathlib

/-!
Verification of the FG-GPT value-creation calculation engine (src/app.py).

The engine is embedded shallowly over the rationals: Python floats become
elements of the rational field, Python int() truncation becomes pyInt, the
string-keyed hub dictionaries become total functions on an enumerated Hub
type (the valid key domain), and the three calculation functions
calculate_rn_metrics, calculate_vt_metrics and calculate_combined_metrics
are translated line by line from the source.
-/

namespace FGGPT

/-- Truncation toward zero, the behaviour of the int() conversion applied
to the hour formulas in calculate_rn_metrics. -/
def pyInt (q : ℚ) : ℤ := if 0 ≤ q then ⌊q⌋ else ⌈q⌉

/-- The three user-configurable capture rates, as fractions (the sidebar
divides the entered percentages by 100 before calling the engine). -/
structure CaptureRates where
  high : ℚ
  med : ℚ
  low : ℚ
deriving DecidableEq

/-- The three trading hubs present in HUB_DATA / HUB_NAMES. -/
inductive Hub where
  | SOUTH
  | PAN
  | WEST
deriving DecidableEq

/-- One entry of the HUB_DATA table. -/
structure HubEntry where
  captured : ℚ
  fg_rev : ℚ
  comb_per_mw : ℚ
deriving DecidableEq

/-- HUB_DATA of the ALPHA strategy (src/app.py lines 238-242). -/
def HUB_DATA_ALPHA : Hub → HubEntry
  | .SOUTH => ⟨4096324, 1536122, 22292⟩
  | .PAN   => ⟨5497859, 2061697, 24482⟩
  | .WEST  => ⟨5555465, 2083299, 24572⟩

/-- HUB_DATA of the HEDGE strategy (src/app.py lines 243-247). -/
def HUB_DATA_HEDGE : Hub → HubEntry
  | .SOUTH => ⟨5118414, 1919405, 22748⟩
  | .PAN   => ⟨6092589, 2284721, 24270⟩
  | .WEST  => ⟨6285939, 2357227, 24572⟩

/- BASELINE constants (src/app.py lines 256-296), the ones the
calculation functions read. -/

def BASELINE_mae : ℚ := 6
def BASELINE_plant_capacity : ℚ := 240
def BASELINE_virtual_position : ℚ := 100
def BASELINE_fg_fee_rate : ℚ := 375/1000
def BASELINE_high_capture : ℚ := 90/100
def BASELINE_med_capture : ℚ := 50/100
def BASELINE_low_capture : ℚ := 10/100
def BASELINE_annualization : ℚ := 13333/10000
def BASELINE_rn_high_hours : ℤ := 1199
def BASELINE_rn_med_hours : ℤ := 836
def BASELINE_rn_low_hours : ℤ := 1460
def BASELINE_rn_total_hours : ℤ := 3495
def BASELINE_rn_high_opp : ℚ := 3525361
def BASELINE_rn_med_opp : ℚ := 849404
def BASELINE_rn_low_opp : ℚ := 512634

/-- The baseline capture-rate triple (90, 50, 10). -/
def baselineCaptureRates : CaptureRates :=
  { high := BASELINE_high_capture, med := BASELINE_med_capture, low := BASELINE_low_capture }

/-- Return record of calculate_rn_metrics. -/
structure RNMetrics where
  high_hours : ℤ
  med_hours : ℤ
  low_hours : ℤ
  high_opp : ℚ
  med_opp : ℚ
  low_opp : ℚ
  high_cap : ℚ
  med_cap : ℚ
  low_cap : ℚ
  total_cap : ℚ
  total_opp : ℚ
  cap_ann : ℚ
deriving DecidableEq

/-- calculate_rn_metrics (src/app.py lines 337-371): shifts the baseline
zone hour counts linearly with the distance of the MAE from 6, scales the
baseline zone opportunities by the hour ratios, applies the three capture
rates zone by zone, and annualizes the captured total. -/
def calculate_rn_metrics (mae : ℚ) (capture_rates : CaptureRates) : RNMetrics :=
  let base_mae : ℚ := 6
  let high_hours : ℤ :=
    if mae ≤ base_mae then
      pyInt ((BASELINE_rn_high_hours : ℚ) * (1 + (base_mae - mae) * (8/100)))
    else
      pyInt ((BASELINE_rn_high_hours : ℚ) * (1 - (mae - base_mae) * (8/100)))
  let low_hours : ℤ :=
    if mae ≤ base_mae then
      pyInt ((BASELINE_rn_low_hours : ℚ) * (1 - (base_mae - mae) * (5/100)))
    else
      pyInt ((BASELINE_rn_low_hours : ℚ) * (1 + (mae - base_mae) * (5/100)))
  let med_hours : ℤ := BASELINE_rn_total_hours - high_hours - low_hours
  let high_opp : ℚ :=
    if (BASELINE_rn_high_hours : ℚ) > 0 then
      BASELINE_rn_high_opp * ((high_hours : ℚ) / (BASELINE_rn_high_hours : ℚ)) else 0
  let med_opp : ℚ :=
    if (BASELINE_rn_med_hours : ℚ) > 0 then
      BASELINE_rn_med_opp * ((med_hours : ℚ) / (BASELINE_rn_med_hours : ℚ)) else 0
  let low_opp : ℚ :=
    if (BASELINE_rn_low_hours : ℚ) > 0 then
      BASELINE_rn_low_opp * ((low_hours : ℚ) / (BASELINE_rn_low_hours : ℚ)) else 0
  let high_cap := high_opp * capture_rates.high
  let med_cap := med_opp * capture_rates.med
  let low_cap := low_opp * capture_rates.low
  let total_cap := high_cap + med_cap + low_cap
  let total_opp := high_opp + med_opp + low_opp
  { high_hours := high_hours, med_hours := med_hours, low_hours := low_hours,
    high_opp := high_opp, med_opp := med_opp, low_opp := low_opp,
    high_cap := high_cap, med_cap := med_cap, low_cap := low_cap,
    total_cap := total_cap, total_opp := total_opp,
    cap_ann := total_cap * BASELINE_annualization }

/-- The capture-rate scaling factor of calculate_vt_metrics (src/app.py
lines 394-397): the ratio of the plain average of the three configured
capture rates to the plain average of the three baseline capture rates. -/
def capture_scale (capture_rates : CaptureRates) : ℚ :=
  let base_avg_capture := (BASELINE_high_capture + BASELINE_med_capture + BASELINE_low_capture) / 3
  let new_avg_capture := (capture_rates.high + capture_rates.med + capture_rates.low) / 3
  new_avg_capture / base_avg_capture

/-- The capture-rate rescaling the code applies to a VT base value
(src/app.py lines 394-400): multiply by capture_scale. -/
def vt_capture_rescale (base_value : ℚ) (capture_rates : CaptureRates) : ℚ :=
  base_value * capture_scale capture_rates

/-- Return record of calculate_vt_metrics. -/
structure VTMetrics where
  alpha_hub : Hub
  hedge_hub : Hub
  alpha_cap : ℚ
  hedge_cap : ℚ
  total_vt : ℚ
deriving DecidableEq

/-- calculate_vt_metrics (src/app.py lines 373-408): looks the alpha and
hedge captured base values up in HUB_DATA, scales both by the virtual
position relative to the 100 MW baseline, by the MAE factor
1 + (6 - mae) * 0.015, and by the capture-rate scaling factor. -/
def calculate_vt_metrics (mae : ℚ) (capture_rates : CaptureRates) (position_mw : ℚ)
    (alpha_hub hedge_hub : Hub) : VTMetrics :=
  let alpha_base := (HUB_DATA_ALPHA alpha_hub).captured
  let hedge_base := (HUB_DATA_HEDGE hedge_hub).captured
  let position_scale := position_mw / BASELINE_virtual_position
  let alpha_cap := alpha_base * position_scale
  let hedge_cap := hedge_base * position_scale
  let mae_factor := 1 + (BASELINE_mae - mae) * (15/1000)
  let alpha_cap := alpha_cap * mae_factor
  let hedge_cap := hedge_cap * mae_factor
  let alpha_cap := vt_capture_rescale alpha_cap capture_rates
  let hedge_cap := vt_capture_rescale hedge_cap capture_rates
  { alpha_hub := alpha_hub, hedge_hub := hedge_hub,
    alpha_cap := alpha_cap, hedge_cap := hedge_cap,
    total_vt := alpha_cap + hedge_cap }

/-- Return record of calculate_combined_metrics. -/
structure CombinedMetrics where
  total_value : ℚ
  fg_revenue : ℚ
  client_uplift : ℚ
  per_mw : ℚ
  mw_for_10m : ℚ
deriving DecidableEq

/-- calculate_combined_metrics (src/app.py lines 410-424): adds the RN
annualized captured value and the VT total, splits by the fee rate, and
computes the per-MW figure and the capacity needed for a 10 M fee target,
the latter guarded only by fg_revenue > 0 with a fallthrough to 0. -/
def calculate_combined_metrics (rn : RNMetrics) (vt : VTMetrics)
    (fg_fee_rate plant_capacity : ℚ) : CombinedMetrics :=
  let total_value := rn.cap_ann + vt.total_vt
  let fg_revenue := total_value * fg_fee_rate
  let client_uplift := total_value * (1 - fg_fee_rate)
  let per_mw := total_value / plant_capacity
  let mw_for_10m := if fg_revenue > 0 then 10000000 / (fg_revenue / plant_capacity) else 0
  { total_value := total_value, fg_revenue := fg_revenue, client_uplift := client_uplift,
    per_mw := per_mw, mw_for_10m := mw_for_10m }

/-- One full parameter set of the engine, as read from the sidebar. -/
structure EngineInput where
  mae : ℚ
  capture_rates : CaptureRates
  virtual_position : ℚ
  alpha_hub : Hub
  hedge_hub : Hub
  fg_fee_rate : ℚ
  plant_capacity : ℚ
deriving DecidableEq

/-- The full valuation pipeline as run on every recomputation
(src/app.py lines 542-545): RN metrics, VT metrics, combined metrics. -/
def runPipeline (i : EngineInput) : RNMetrics × VTMetrics × CombinedMetrics :=
  let rn := calculate_rn_metrics i.mae i.capture_rates
  let vt := calculate_vt_metrics i.mae i.capture_rates i.virtual_position i.alpha_hub i.hedge_hub
  (rn, vt, calculate_combined_metrics rn vt i.fg_fee_rate i.plant_capacity)

/-- An hourly zone-confidence distribution, a triple of zone percentages,
as described by the specification of the Capture-Rate Rescaler. -/
structure ZoneDistribution where
  high_pct : ℚ
  med_pct : ℚ
  low_pct : ℚ
deriving DecidableEq

/-- Modelled from the spec: the baseline zone-distribution-weighted
capture of the specified Capture-Rate Rescaler, missing from src/app.py,
which weights the zone percentages by the baseline rates (0.90, 0.50, 0.10). -/
def baseline_weighted (z : ZoneDistribution) : ℚ :=
  z.high_pct * (90/100) + z.med_pct * (50/100) + z.low_pct * (10/100)

/-- Modelled from the spec: the new zone-distribution-weighted capture of
the specified Capture-Rate Rescaler, missing from src/app.py, which weights
the zone percentages by the configured rates. -/
def new_weighted (r : CaptureRates) (z : ZoneDistribution) : ℚ :=
  z.high_pct * r.high + z.med_pct * r.med + z.low_pct * r.low

/-- Scenario selector of the specified Scenario Composer. -/
inductive ScenarioSel where
  | RN_ONLY
  | VT_ONLY
  | COMBINED
deriving DecidableEq

/-- Return record of the specified Scenario Composer. -/
structure ComposeResult where
  rn : ℚ
  vt_alpha : ℚ
  vt_hedge : ℚ
  total : ℚ
deriving DecidableEq

/-- Modelled from the spec: the Scenario Composer, missing from src/app.py
(the source always combines all three strategies, as in the COMBINED case):
RN_ONLY zeroes the two VT components, VT_ONLY zeroes RN, COMBINED passes
all three through, and total is the sum of the possibly zeroed three. -/
def compose (s : ScenarioSel) (rn_annual vt_alpha_annual vt_hedge_annual : ℚ) : ComposeResult :=
  match s with
  | .RN_ONLY =>
      { rn := rn_annual, vt_alpha := 0, vt_hedge := 0,
        total := rn_annual + 0 + 0 }
  | .VT_ONLY =>
      { rn := 0, vt_alpha := vt_alpha_annual, vt_hedge := vt_hedge_annual,
        total := 0 + vt_alpha_annual + vt_hedge_annual }
  | .COMBINED =>
      { rn := rn_annual, vt_alpha := vt_alpha_annual, vt_hedge := vt_hedge_annual,
        total := rn_annual + vt_alpha_annual + vt_hedge_annual }

/- Shared concrete evaluation points used by witnesses and counterexamples. -/

/-- RN metrics at the baseline MAE of 6 with baseline capture rates. -/
def rn6 : RNMetrics := calculate_rn_metrics 6 baselineCaptureRates

/-- VT metrics at the baseline MAE of 6, baseline capture rates, the
100 MW baseline virtual position, and the SOUTH hub for both strategies. -/
def vt6S : VTMetrics := calculate_vt_metrics 6 baselineCaptureRates 100 .SOUTH .SOUTH

example : rn6.high_hours = 1199 := by
  norm_num [rn6, calculate_rn_metrics, pyInt, BASELINE_rn_high_hours]
example : rn6.med_hours = 836 := by
  norm_num [rn6, calculate_rn_metrics, pyInt, BASELINE_rn_high_hours,
    BASELINE_rn_low_hours, BASELINE_rn_total_hours]
example : rn6.low_hours = 1460 := by
  norm_num [rn6, calculate_rn_metrics, pyInt, BASELINE_rn_low_hours]
example : rn6.cap_ann = 486493210699/100000 := by
  norm_num [rn6, calculate_rn_metrics, pyInt, BASELINE_rn_high_hours,
    BASELINE_rn_low_hours, BASELINE_rn_total_hours, BASELINE_rn_med_hours,
    BASELINE_rn_high_opp, BASELINE_rn_med_opp, BASELINE_rn_low_opp,
    BASELINE_annualization, baselineCaptureRates, BASELINE_high_capture,
    BASELINE_med_capture, BASELINE_low_capture]
example : vt6S.alpha_cap = 4096324 := by
  norm_num [vt6S, calculate_vt_metrics, vt_capture_rescale, capture_scale,
    HUB_DATA_ALPHA, HUB_DATA_HEDGE, baselineCaptureRates, BASELINE_mae,
    BASELINE_virtual_position, BASELINE_high_capture, BASELINE_med_capture,
    BASELINE_low_capture]
example : vt6S.total_vt = 9214738 := by
  norm_num [vt6S, calculate_vt_metrics, vt_capture_rescale, capture_scale,
    HUB_DATA_ALPHA, HUB_DATA_HEDGE, baselineCaptureRates, BASELINE_mae,
    BASELINE_virtual_position, BASELINE_high_capture, BASELINE_med_capture,
    BASELINE_low_capture]

/-- C10: for every MAE input (and any capture rates), the three zone hour
counts returned by calculate_rn_metrics sum exactly to the fixed baseline
total of 3495 production hours, because the medium-zone hours are defined
as the remainder after subtracting the other two from the total. -/
theorem C10_hours_sum (mae : ℚ) (r : CaptureRates) :
    (calculate_rn_metrics mae r).high_hours + (calculate_rn_metrics mae r).med_hours
      + (calculate_rn_metrics mae r).low_hours = 3495 := by
  simp only [calculate_rn_metrics, BASELINE_rn_total_hours]
  omega

/-- C2: for every total value at least 0 and every fee rate between 0 and
100 percent, the revenue split of calculate_combined_metrics satisfies
fg_revenue = total times fee over 100, client_uplift = total minus
fg_revenue, and fg_revenue plus client_uplift equals the total exactly;
a fee rate of 0 gives fg_revenue = 0. -/
theorem C2_revenue_split_exact (rn : RNMetrics) (vt : VTMetrics)
    (fee_pct plant_capacity : ℚ)
    (htot : 0 ≤ (calculate_combined_metrics rn vt (fee_pct / 100) plant_capacity).total_value)
    (h0 : 0 ≤ fee_pct) (h1 : fee_pct ≤ 100) :
    (calculate_combined_metrics rn vt (fee_pct / 100) plant_capacity).fg_revenue
        = (calculate_combined_metrics rn vt (fee_pct / 100) plant_capacity).total_value
          * (fee_pct / 100)
    ∧ (calculate_combined_metrics rn vt (fee_pct / 100) plant_capacity).client_uplift
        = (calculate_combined_metrics rn vt (fee_pct / 100) plant_capacity).total_value
          - (calculate_combined_metrics rn vt (fee_pct / 100) plant_capacity).fg_revenue
    ∧ (calculate_combined_metrics rn vt (fee_pct / 100) plant_capacity).fg_revenue
        + (calculate_combined_metrics rn vt (fee_pct / 100) plant_capacity).client_uplift
        = (calculate_combined_metrics rn vt (fee_pct / 100) plant_capacity).total_value
    ∧ (fee_pct = 0 →
        (calculate_combined_metrics rn vt (fee_pct / 100) plant_capacity).fg_revenue = 0) := by
  refine ⟨rfl, ?_, ?_, ?_⟩
  · simp only [calculate_combined_metrics]
    ring
  · simp only [calculate_combined_metrics]
    ring
  · intro h
    simp [calculate_combined_metrics, h]

/-- C2 witness: the split identities hold at the baseline evaluation point
with a 37 percent fee. -/
theorem C2_revenue_split_exact_witness :
    (0 ≤ (calculate_combined_metrics rn6 vt6S ((37:ℚ) / 100) 240).total_value
      ∧ (0:ℚ) ≤ 37 ∧ (37:ℚ) ≤ 100)
    ∧ (calculate_combined_metrics rn6 vt6S ((37:ℚ) / 100) 240).fg_revenue
        + (calculate_combined_metrics rn6 vt6S ((37:ℚ) / 100) 240).client_uplift
        = (calculate_combined_metrics rn6 vt6S ((37:ℚ) / 100) 240).total_value :=
  ⟨⟨by norm_num [calculate_combined_metrics, rn6, vt6S, calculate_rn_metrics,
      calculate_vt_metrics, pyInt, vt_capture_rescale, capture_scale,
      HUB_DATA_ALPHA, HUB_DATA_HEDGE, baselineCaptureRates, BASELINE_mae,
      BASELINE_virtual_position, BASELINE_high_capture, BASELINE_med_capture,
      BASELINE_low_capture, BASELINE_rn_high_hours, BASELINE_rn_low_hours,
      BASELINE_rn_total_hours, BASELINE_rn_med_hours, BASELINE_rn_high_opp,
      BASELINE_rn_med_opp, BASELINE_rn_low_opp, BASELINE_annualization],
    by norm_num, by norm_num⟩,
   (C2_revenue_split_exact rn6 vt6S 37 240
      (by norm_num [calculate_combined_metrics, rn6, vt6S, calculate_rn_metrics,
        calculate_vt_metrics, pyInt, vt_capture_rescale, capture_scale,
        HUB_DATA_ALPHA, HUB_DATA_HEDGE, baselineCaptureRates, BASELINE_mae,
        BASELINE_virtual_position, BASELINE_high_capture, BASELINE_med_capture,
        BASELINE_low_capture, BASELINE_rn_high_hours, BASELINE_rn_low_hours,
        BASELINE_rn_total_hours, BASELINE_rn_med_hours, BASELINE_rn_high_opp,
        BASELINE_rn_med_opp, BASELINE_rn_low_opp, BASELINE_annualization])
      (by norm_num) (by norm_num)).2.2.1⟩

/-- C7: for all annual strategy values a (RN), b (VT-Alpha), c (VT-Hedge)
at least 0, the Scenario Composer satisfies compose RN_ONLY total = a,
compose VT_ONLY total = b + c, and compose COMBINED total = a + b + c;
the total is always the sum of the possibly zeroed three components. -/
theorem C7_compose_totals (a b c : ℚ) (ha : 0 ≤ a) (hb : 0 ≤ b) (hc : 0 ≤ c) :
    (compose .RN_ONLY a b c).total = a
    ∧ (compose .VT_ONLY a b c).total = b + c
    ∧ (compose .COMBINED a b c).total = a + b + c := by
  refine ⟨?_, ?_, rfl⟩ <;> simp [compose]

/-- C7 witness: the composer totals at the concrete triple (1, 2, 3). -/
theorem C7_compose_totals_witness :
    ((0:ℚ) ≤ 1 ∧ (0:ℚ) ≤ 2 ∧ (0:ℚ) ≤ 3)
    ∧ (compose .RN_ONLY (1:ℚ) 2 3).total = 1
    ∧ (compose .VT_ONLY (1:ℚ) 2 3).total = 2 + 3
    ∧ (compose .COMBINED (1:ℚ) 2 3).total = 1 + 2 + 3 :=
  ⟨⟨by norm_num, by norm_num, by norm_num⟩,
   C7_compose_totals 1 2 3 (by norm_num) (by norm_num) (by norm_num)⟩

/-- C9: the full valuation pipeline is a deterministic, side-effect-free
function of its input parameter set and the static calibration constants:
two runs on identical inputs yield identical outputs. -/
theorem C9_pipeline_deterministic (i j : EngineInput) (hij : i = j) :
    runPipeline i = runPipeline j := by
  rw [hij]

/-- C9 witness: two runs on the baseline input coincide. -/
theorem C9_pipeline_deterministic_witness :
    runPipeline ⟨6, baselineCaptureRates, 100, .SOUTH, .SOUTH, 37/100, 240⟩
      = runPipeline ⟨6, baselineCaptureRates, 100, .SOUTH, .SOUTH, 37/100, 240⟩ :=
  C9_pipeline_deterministic _ _ rfl

/-- C3 counterexample: the claimed zone-distribution-weighted rescaling law
fails on the code at the explicit input v = 1, rates (50, 50, 50), zone
distribution (100, 0, 0): the code rescales by the plain average-capture
quotient, 1, while the weighted quotient is 5/9. -/
theorem C3_counterexample :
    vt_capture_rescale 1 ⟨1/2, 1/2, 1/2⟩ / vt_capture_rescale 1 baselineCaptureRates
      ≠ new_weighted ⟨1/2, 1/2, 1/2⟩ ⟨100, 0, 0⟩ / baseline_weighted ⟨100, 0, 0⟩ := by
  norm_num [vt_capture_rescale, capture_scale, new_weighted, baseline_weighted,
    baselineCaptureRates, BASELINE_high_capture, BASELINE_med_capture,
    BASELINE_low_capture]

/-- C3 amended: the capture-rate rescaling the code applies to VT strategy
values ignores the zone distribution entirely; for every nonzero base value
it is linear in the quotient of the plain (unweighted) averages of the new
and baseline capture rates. -/
theorem C3_rescale_average_quotient (v : ℚ) (r : CaptureRates) (hv : v ≠ 0) :
    vt_capture_rescale v r / vt_capture_rescale v baselineCaptureRates
      = ((r.high + r.med + r.low) / 3) / ((90/100 + 50/100 + 10/100) / 3) := by
  have h1 : capture_scale baselineCaptureRates = 1 := by
    norm_num [capture_scale, baselineCaptureRates, BASELINE_high_capture,
      BASELINE_med_capture, BASELINE_low_capture]
  simp only [vt_capture_rescale, h1, mul_one]
  rw [mul_comm, mul_div_assoc, div_self hv, mul_one]
  norm_num [capture_scale, BASELINE_high_capture, BASELINE_med_capture,
    BASELINE_low_capture]

/-- C3 amended witness: the average-quotient law at v = 2 and rates
(100, 100, 100). -/
theorem C3_rescale_average_quotient_witness :
    ((2:ℚ) ≠ 0)
    ∧ vt_capture_rescale 2 ⟨1, 1, 1⟩ / vt_capture_rescale 2 baselineCaptureRates
      = (((1:ℚ) + 1 + 1) / 3) / (((90:ℚ)/100 + 50/100 + 10/100) / 3) :=
  ⟨by norm_num, C3_rescale_average_quotient 2 ⟨1, 1, 1⟩ (by norm_num)⟩

/-- C4 counterexample: the engine does not clamp an out-of-domain MAE to
the nearest supported boundary: at MAE 13 the RN high-zone hours are 527,
not the level-12 value 623, and at MAE 2 they are 1582, not the level-3
value 1486. -/
theorem C4_counterexample :
    ((12:ℚ) < 13
      ∧ (calculate_rn_metrics 13 baselineCaptureRates).high_hours
          ≠ (calculate_rn_metrics 12 baselineCaptureRates).high_hours)
    ∧ ((2:ℚ) < 3
      ∧ (calculate_rn_metrics 2 baselineCaptureRates).high_hours
          ≠ (calculate_rn_metrics 3 baselineCaptureRates).high_hours) := by
  refine ⟨⟨by norm_num, ?_⟩, ⟨by norm_num, ?_⟩⟩ <;>
    norm_num [calculate_rn_metrics, pyInt, BASELINE_rn_high_hours,
      BASELINE_rn_low_hours, BASELINE_rn_total_hours]

/-- C4 amended: out-of-domain MAE values are neither clamped nor rejected:
the same linear hour-shift formulas extrapolate past both boundaries (the
sidebar slider, outside the engine, is what restricts the input to the
interval from 3 to 12), and the calculation is total, never raising. -/
theorem C4_no_clamp_extrapolates :
    (calculate_rn_metrics 13 baselineCaptureRates).high_hours = 527
    ∧ (calculate_rn_metrics 12 baselineCaptureRates).high_hours = 623
    ∧ (calculate_rn_metrics 13 baselineCaptureRates).low_hours = 1971
    ∧ (calculate_rn_metrics 12 baselineCaptureRates).low_hours = 1898
    ∧ (calculate_rn_metrics 2 baselineCaptureRates).high_hours = 1582
    ∧ (calculate_rn_metrics 3 baselineCaptureRates).high_hours = 1486
    ∧ (calculate_rn_metrics 2 baselineCaptureRates).low_hours = 1168
    ∧ (calculate_rn_metrics 3 baselineCaptureRates).low_hours = 1241 := by
  refine ⟨?_, ?_, ?_, ?_, ?_, ?_, ?_, ?_⟩ <;>
    norm_num [calculate_rn_metrics, pyInt, BASELINE_rn_high_hours,
      BASELINE_rn_low_hours, BASELINE_rn_total_hours]

/-- An engine input with zero plant capacity and otherwise baseline
parameters. -/
def c6Input : EngineInput :=
  ⟨6, baselineCaptureRates, 100, .SOUTH, .SOUTH, 37/100, 0⟩

/-- C6 counterexample: with zero plant capacity the RN annual value is not
zero: the RN captured value is baked in for the 240 MW baseline plant and
never scales with the plant-capacity parameter, so the pipeline at zero
plant capacity still reports the full RN annualized value and total. -/
theorem C6_counterexample :
    c6Input.plant_capacity = 0
    ∧ (runPipeline c6Input).1.cap_ann ≠ 0
    ∧ (runPipeline c6Input).2.2.total_value ≠ 0 := by
  refine ⟨rfl, ?_, ?_⟩ <;>
    norm_num [c6Input, runPipeline, calculate_rn_metrics, calculate_vt_metrics,
      calculate_combined_metrics, pyInt, vt_capture_rescale, capture_scale,
      HUB_DATA_ALPHA, HUB_DATA_HEDGE, baselineCaptureRates, BASELINE_mae,
      BASELINE_virtual_position, BASELINE_high_capture, BASELINE_med_capture,
      BASELINE_low_capture, BASELINE_rn_high_hours, BASELINE_rn_low_hours,
      BASELINE_rn_total_hours, BASELINE_rn_med_hours, BASELINE_rn_high_opp,
      BASELINE_rn_med_opp, BASELINE_rn_low_opp, BASELINE_annualization]

/-- C6 amended: a zero virtual position zeroes both VT strategy values and
the VT total with no division by the zero capacity, while the RN annual
value and the combined total are independent of the plant-capacity
parameter (so zero plant capacity does not zero them). -/
theorem C6_zero_virtual_position_zeroes_vt (mae : ℚ) (r : CaptureRates)
    (a h : Hub) (rn : RNMetrics) (fee c c' : ℚ) :
    (calculate_vt_metrics mae r 0 a h).alpha_cap = 0
    ∧ (calculate_vt_metrics mae r 0 a h).hedge_cap = 0
    ∧ (calculate_vt_metrics mae r 0 a h).total_vt = 0
    ∧ (calculate_combined_metrics rn (calculate_vt_metrics mae r 0 a h) fee c).total_value
        = (calculate_combined_metrics rn (calculate_vt_metrics mae r 0 a h) fee c').total_value := by
  refine ⟨?_, ?_, ?_, rfl⟩ <;>
    simp [calculate_vt_metrics, vt_capture_rescale, BASELINE_virtual_position]

/-- The input parameter set of the specified worked scenario: MAE 6, plant
240 MW, virtual position 100 MW, capture rates (90, 50, 10), SOUTH hub for
both VT strategies, 37 percent fee. -/
def c1Input : EngineInput :=
  ⟨6, baselineCaptureRates, 100, .SOUTH, .SOUTH, 37/100, 240⟩

/-- C1 counterexample: at the specified scenario input the engine matches
none of the claimed figures: the RN annual value is not 4,799,760, the
VT-Alpha value is not 5,555,500, the VT-Hedge value is not 5,118,480, and
the total is not 15,473,740. -/
theorem C1_counterexample :
    (runPipeline c1Input).1.cap_ann ≠ 4799760
    ∧ (runPipeline c1Input).2.1.alpha_cap ≠ 5555500
    ∧ (runPipeline c1Input).2.1.hedge_cap ≠ 5118480
    ∧ (runPipeline c1Input).2.2.total_value ≠ 15473740 := by
  refine ⟨?_, ?_, ?_, ?_⟩ <;>
    norm_num [c1Input, runPipeline, calculate_rn_metrics, calculate_vt_metrics,
      calculate_combined_metrics, pyInt, vt_capture_rescale, capture_scale,
      HUB_DATA_ALPHA, HUB_DATA_HEDGE, baselineCaptureRates, BASELINE_mae,
      BASELINE_virtual_position, BASELINE_high_capture, BASELINE_med_capture,
      BASELINE_low_capture, BASELINE_rn_high_hours, BASELINE_rn_low_hours,
      BASELINE_rn_total_hours, BASELINE_rn_med_hours, BASELINE_rn_high_opp,
      BASELINE_rn_med_opp, BASELINE_rn_low_opp, BASELINE_annualization]

/-- C1 amended: at the scenario input (MAE 6, plant 240 MW, virtual 100 MW,
capture rates (90, 50, 10), SOUTH hub for both strategies, 37 percent fee)
the engine produces RN annual value 4,864,932.10699, VT-Alpha annual value
4,096,324 and VT-Hedge annual value 5,118,414 (the SOUTH captured entries,
both scaled by the 100 MW virtual position), total value 14,079,670.10699,
fee revenue 5,209,477.9395863 and client uplift 8,870,192.1674037. -/
theorem C1_engine_values :
    (runPipeline c1Input).1.cap_ann = 486493210699/100000
    ∧ (runPipeline c1Input).2.1.alpha_cap = 4096324
    ∧ (runPipeline c1Input).2.1.hedge_cap = 5118414
    ∧ (runPipeline c1Input).2.2.total_value = 1407967010699/100000
    ∧ (runPipeline c1Input).2.2.fg_revenue = 52094779395863/10000000
    ∧ (runPipeline c1Input).2.2.client_uplift = 88701921674037/10000000 := by
  refine ⟨?_, ?_, ?_, ?_, ?_, ?_⟩ <;>
    norm_num [c1Input, runPipeline, calculate_rn_metrics, calculate_vt_metrics,
      calculate_combined_metrics, pyInt, vt_capture_rescale, capture_scale,
      HUB_DATA_ALPHA, HUB_DATA_HEDGE, baselineCaptureRates, BASELINE_mae,
      BASELINE_virtual_position, BASELINE_high_capture, BASELINE_med_capture,
      BASELINE_low_capture, BASELINE_rn_high_hours, BASELINE_rn_low_hours,
      BASELINE_rn_total_hours, BASELINE_rn_med_hours, BASELINE_rn_high_opp,
      BASELINE_rn_med_opp, BASELINE_rn_low_opp, BASELINE_annualization]

/-- C5 counterexample: at a zero fee rate the fee revenue is 0, which is
not positive, and the capacity-for-target figure returned is the plain
number 0: a silently substituted zero, not a distinct undefined or
not-computable outcome. -/
theorem C5_counterexample :
    (calculate_combined_metrics rn6 vt6S 0 240).fg_revenue = 0
    ∧ (calculate_combined_metrics rn6 vt6S 0 240).mw_for_10m = 0 := by
  constructor <;> simp [calculate_combined_metrics]

/-- C5 amended: when fee revenue is positive the capacity-for-target
computation returns target divided by fee revenue per MW of plant capacity;
when fee revenue is zero or negative it returns the sentinel value 0 rather
than a distinct undefined outcome. -/
theorem C5_capacity_for_target (rn : RNMetrics) (vt : VTMetrics) (fee cap : ℚ) :
    (0 < (calculate_combined_metrics rn vt fee cap).fg_revenue →
      (calculate_combined_metrics rn vt fee cap).mw_for_10m
        = 10000000 / ((calculate_combined_metrics rn vt fee cap).fg_revenue / cap))
    ∧ ((calculate_combined_metrics rn vt fee cap).fg_revenue ≤ 0 →
      (calculate_combined_metrics rn vt fee cap).mw_for_10m = 0) := by
  constructor
  · intro h
    simp only [calculate_combined_metrics] at h ⊢
    rw [if_pos h]
  · intro h
    simp only [calculate_combined_metrics] at h ⊢
    rw [if_neg (not_lt.mpr h)]

/-- C5 amended witness: the two branches of the capacity-for-target
computation at the baseline evaluation point with fees of 37 percent
and of 0. -/
theorem C5_capacity_for_target_witness :
    ((0:ℚ) < (calculate_combined_metrics rn6 vt6S (37/100) 240).fg_revenue
      ∧ (calculate_combined_metrics rn6 vt6S (37/100) 240).mw_for_10m
          = 10000000 / ((calculate_combined_metrics rn6 vt6S (37/100) 240).fg_revenue / 240))
    ∧ ((calculate_combined_metrics rn6 vt6S 0 240).fg_revenue ≤ 0
      ∧ (calculate_combined_metrics rn6 vt6S 0 240).mw_for_10m = 0) := by
  have hpos : (0:ℚ) < (calculate_combined_metrics rn6 vt6S (37/100) 240).fg_revenue := by
    norm_num [calculate_combined_metrics, rn6, vt6S, calculate_rn_metrics,
      calculate_vt_metrics, pyInt, vt_capture_rescale, capture_scale,
      HUB_DATA_ALPHA, HUB_DATA_HEDGE, baselineCaptureRates, BASELINE_mae,
      BASELINE_virtual_position, BASELINE_high_capture, BASELINE_med_capture,
      BASELINE_low_capture, BASELINE_rn_high_hours, BASELINE_rn_low_hours,
      BASELINE_rn_total_hours, BASELINE_rn_med_hours, BASELINE_rn_high_opp,
      BASELINE_rn_med_opp, BASELINE_rn_low_opp, BASELINE_annualization]
  have hneg : (calculate_combined_metrics rn6 vt6S 0 240).fg_revenue ≤ 0 := by
    simp [calculate_combined_metrics]
  exact ⟨⟨hpos, (C5_capacity_for_target rn6 vt6S (37/100) 240).1 hpos⟩,
         ⟨hneg, (C5_capacity_for_target rn6 vt6S 0 240).2 hneg⟩⟩

/-- C8 counterexample: at the calibrated integer level 3 inside the domain,
the VT-Alpha value computed with the baseline capture rates does not equal
the SOUTH hub table entry: the MAE factor scales it to 4,280,658.58. -/
theorem C8_counterexample :
    ((3:ℚ) ≤ 3 ∧ (3:ℚ) ≤ 12)
    ∧ (calculate_vt_metrics 3 baselineCaptureRates 100 .SOUTH .SOUTH).alpha_cap
        ≠ (HUB_DATA_ALPHA .SOUTH).captured := by
  refine ⟨⟨by norm_num, by norm_num⟩, ?_⟩
  norm_num [calculate_vt_metrics, vt_capture_rescale, capture_scale,
    HUB_DATA_ALPHA, baselineCaptureRates, BASELINE_mae,
    BASELINE_virtual_position, BASELINE_high_capture, BASELINE_med_capture,
    BASELINE_low_capture]

/-- C8 amended: rescaling with the baseline capture rates is an identity
transform (the capture scaling factor is 1), and the hub table entries are
returned exactly at the baseline MAE of 6 and the baseline 100 MW virtual
position; at other accuracy levels the entry is additionally scaled by the
MAE factor, the code holding no per-level calibration table. -/
theorem C8_baseline_identity (a h : Hub) (v : ℚ) :
    capture_scale baselineCaptureRates = 1
    ∧ vt_capture_rescale v baselineCaptureRates = v
    ∧ (calculate_vt_metrics 6 baselineCaptureRates 100 a h).alpha_cap
        = (HUB_DATA_ALPHA a).captured
    ∧ (calculate_vt_metrics 6 baselineCaptureRates 100 a h).hedge_cap
        = (HUB_DATA_HEDGE h).captured := by
  have h1 : capture_scale baselineCaptureRates = 1 := by
    norm_num [capture_scale, baselineCaptureRates, BASELINE_high_capture,
      BASELINE_med_capture, BASELINE_low_capture]
  refine ⟨h1, by simp [vt_capture_rescale, h1], ?_, ?_⟩ <;>
    norm_num [calculate_vt_metrics, vt_capture_rescale, h1, BASELINE_mae,
      BASELINE_virtual_position]

end FGGPT
